import Mathlib

/-!
Shallow embedding of the GOTHook repository (src/src/got_hook.rs,
src/src/error.rs) in Lean 4.

Modelling conventions:
 - Rust u64/u32/u16/u8 values are modelled as Nat; explicit wrap or checked
   arithmetic is used where overflow or underflow matters (the u64
   subtraction in find_elf_in_memory, the u64 bitmask in hook_got_entry).
 - The in-memory ELF byte span (a Rust byte slice) is a List Nat, each
   element a byte value.  The read primitives of the object crate
   (read_bytes_at, read_slice_at, read_at, read_bytes_at_until) are given
   their concrete bounds-checked semantics; a failing bound is none.
 - Rust strings are modelled by their UTF-8 byte sequences (List Nat);
   the str-from-utf8 validation is the utf8Valid predicate below, and
   equality of two valid strings is byte equality.
 - Live process memory touched by install/release is a MachineState:
   mem gives the pointer-sized value stored at each absolute address,
   prot the protection flags covering each absolute address.
 - OS facilities (dladdr, procfs, mprotect success) are an Env record;
   a Rust panic (u64 overflow check failure) is the Res.panicked outcome.
-/

namespace GotHookModel

/-- Byte sequences: a Rust byte slice, each element one byte. -/
abbrev Bytes := List Nat

/-- ELF dynamic tag DT_PLTRELSZ. -/
def DT_PLTRELSZ : Nat := 2
/-- ELF dynamic tag DT_STRTAB. -/
def DT_STRTAB : Nat := 5
/-- ELF dynamic tag DT_SYMTAB. -/
def DT_SYMTAB : Nat := 6
/-- ELF dynamic tag DT_STRSZ. -/
def DT_STRSZ : Nat := 10
/-- ELF dynamic tag DT_PLTREL (never consulted by the source). -/
def DT_PLTREL : Nat := 20
/-- ELF dynamic tag DT_JMPREL. -/
def DT_JMPREL : Nat := 23
/-- ELF program header type PT_DYNAMIC. -/
def PT_DYNAMIC : Nat := 2
/-- AArch64 jump-slot relocation type (object::elf::R_AARCH64_JUMP_SLOT). -/
def R_AARCH64_JUMP_SLOT : Nat := 1026
/-- x86-64 jump-slot relocation type (object::elf::R_X86_64_JUMP_SLOT),
never used by the source; listed for the architecture claims. -/
def R_X86_64_JUMP_SLOT : Nat := 7
/-- The hardcoded page size from got_hook.rs line 18. -/
def PAGE_SIZE : Nat := 4096

/-- The error enum of src/src/error.rs.  String payloads are carried as
their UTF-8 bytes, pointer/u64 payloads as Nat. -/
inductive Error where
  | Dladdr (address : Nat)
  | FindCurrentProcess
  | ReadProcessMaps
  | ParseElfHeader
  | GetElfEndianness
  | ElfHasNoProgramHeaders
  | GetElfProgramHeadersNumber
  | ReadElfProgramHeaders
  | ElfHasNoDynamicSegment
  | ReadElfDynamicSegment
  | ElfHasNoPltRelocationTable
  | InvalidElfRelocationKind (kind : Nat)
  | ReadElfPltRelocationTable
  | ReadElfDynamicStringTable
  | ReadElfSymbol
  | FindElfSymbolName
  | NonUtf8ElfSymbolName
  | NoGotEntryForFunction (name : Bytes)
  | ModifyMemoryPageProtection (errno : Nat) (page : Nat)
deriving DecidableEq, Repr

/-- ELF byte order, resolved from the file header. -/
inductive Endianness where
  | little
  | big
deriving DecidableEq, Repr

/-- Value of a little-endian byte sequence. -/
def readLE : Bytes → Nat
  | [] => 0
  | b :: rest => b + 256 * readLE rest

/-- Value of a big-endian byte sequence. -/
def readBE (l : Bytes) : Nat :=
  l.foldl (fun acc b => acc * 256 + b) 0

/-- Value of a byte sequence under the given endianness. -/
def readUN : Endianness → Bytes → Nat
  | .little, l => readLE l
  | .big, l => readBE l

/-- Read the integer field of width len at byte offset off of a record. -/
def fieldAt (bs : Bytes) (off len : Nat) (e : Endianness) : Nat :=
  readUN e ((bs.drop off).take len)

/-- object crate ReadRef::read_bytes_at for a byte slice: the sub-span
of size bytes at offset, none when it exceeds the slice. -/
def readBytesAt (data : Bytes) (offset size : Nat) : Option Bytes :=
  if offset + size ≤ data.length then some ((data.drop offset).take size)
  else none

/-- Parse count consecutive records of entSize bytes each. -/
def parseEntries (parse : Bytes → α) (entSize : Nat) : Nat → Bytes → List α
  | 0, _ => []
  | k + 1, bs => parse (bs.take entSize) :: parseEntries parse entSize k (bs.drop entSize)

/-- object crate ReadRef::read_slice_at for a byte slice: count records of
entSize bytes starting at offset; none when the span exceeds the slice.
Note the second argument of the Rust function is the COUNT of records,
not a byte size. -/
def read_slice_at (data : Bytes) (offset count entSize : Nat) (parse : Bytes → α) :
    Option (List α) :=
  (readBytesAt data offset (count * entSize)).map (parseEntries parse entSize count)

/-- object crate ReadRef::read_bytes_at_until over the range
start..stop with a delimiter byte: the bytes strictly before the first
delimiter; none when the range is invalid or holds no delimiter. -/
def read_bytes_at_until (data : Bytes) (start stop delim : Nat) : Option Bytes :=
  if start ≤ stop ∧ stop ≤ data.length then
    let bytes := (data.drop start).take (stop - start)
    match bytes.findIdx? (fun b => b = delim) with
    | some i => some (bytes.take i)
    | none => none
  else none

/-- ELF64 dynamic entry, fields already decoded with the file endianness
(object::elf::Dyn64 with its accessors applied). -/
structure Dyn64 where
  d_tag : Nat
  d_val : Nat
deriving DecidableEq, Repr

/-- object crate Dyn::tag32: the tag when it fits in 32 bits. -/
def Dyn64.tag32 (e : Dyn64) : Option Nat :=
  if e.d_tag < 2 ^ 32 then some e.d_tag else none

/-- Decode one 16-byte Dyn64 record. -/
def Dyn64.parse (e : Endianness) (bs : Bytes) : Dyn64 :=
  { d_tag := fieldAt bs 0 8 e, d_val := fieldAt bs 8 8 e }

/-- The tag test the source builds from tag32, literally
e.tag32(endian).map(t eq tag).unwrap_or(false). -/
def tagMatches (tag : Nat) (e : Dyn64) : Bool :=
  (e.tag32.map (fun t => tag == t)).getD false

/-- ELF64 relocation-with-addend entry (object::elf::Rela64), decoded. -/
structure Rela64 where
  r_offset : Nat
  r_info : Nat
  r_addend : Nat
deriving DecidableEq, Repr

/-- object crate Rela::r_type with is_mips64el false: low 32 bits of r_info. -/
def Rela64.rType (r : Rela64) : Nat := r.r_info % 2 ^ 32

/-- object crate Rela::r_sym with is_mips64el false: high 32 bits of r_info. -/
def Rela64.rSym (r : Rela64) : Nat := r.r_info / 2 ^ 32 % 2 ^ 32

/-- Decode one 24-byte Rela64 record. -/
def Rela64.parse (e : Endianness) (bs : Bytes) : Rela64 :=
  { r_offset := fieldAt bs 0 8 e
    r_info := fieldAt bs 8 8 e
    r_addend := fieldAt bs 16 8 e }

/-- ELF64 symbol record (object::elf::Sym64), decoded. -/
structure Sym64 where
  st_name : Nat
  st_info : Nat
  st_other : Nat
  st_shndx : Nat
  st_value : Nat
  st_size : Nat
deriving DecidableEq, Repr

/-- Decode one 24-byte Sym64 record. -/
def Sym64.parse (e : Endianness) (bs : Bytes) : Sym64 :=
  { st_name := fieldAt bs 0 4 e
    st_info := fieldAt bs 4 1 e
    st_other := fieldAt bs 5 1 e
    st_shndx := fieldAt bs 6 2 e
    st_value := fieldAt bs 8 8 e
    st_size := fieldAt bs 16 8 e }

/-- size_of::(Sym64) in the source's symbol-table address arithmetic. -/
def SYM64_SIZE : Nat := 24

/-- object crate read_at for a 24-byte Sym64 record. -/
def read_sym_at (data : Bytes) (e : Endianness) (offset : Nat) : Option Sym64 :=
  (readBytesAt data offset SYM64_SIZE).map (Sym64.parse e)

/-- object crate StringTable: a byte span start..stop of the data slice. -/
structure StringTable where
  start : Nat
  stop : Nat
deriving DecidableEq, Repr

/-- object crate StringTable::get: the NUL-terminated bytes at the offset. -/
def StringTable.get (data : Bytes) (t : StringTable) (offset : Nat) : Option Bytes :=
  read_bytes_at_until data (t.start + offset) t.stop 0

/-- object crate Sym::name: the symbol's name bytes from the string table. -/
def Sym64.name (data : Bytes) (t : StringTable) (sym : Sym64) : Option Bytes :=
  StringTable.get data t sym.st_name

/-- True for a UTF-8 continuation byte. -/
def utf8Cont (c : Nat) : Bool := 0x80 ≤ c && c < 0xC0

/-- Validity of a byte sequence as UTF-8, the check performed by Rust's
str::from_utf8: rejects continuation-byte leads, overlong encodings,
surrogates, and code points above 0x10FFFF. -/
def utf8Valid : List Nat → Bool
  | [] => true
  | b :: rest =>
    if b < 0x80 then utf8Valid rest
    else if b < 0xC2 then false
    else if b < 0xE0 then
      match rest with
      | c1 :: rest2 => utf8Cont c1 && utf8Valid rest2
      | [] => false
    else if b < 0xF0 then
      match rest with
      | c1 :: c2 :: rest2 =>
        utf8Cont c1 && utf8Cont c2 &&
          (let cp := (b - 0xE0) * 4096 + (c1 - 0x80) * 64 + (c2 - 0x80)
           decide (0x800 ≤ cp) && !(decide (0xD800 ≤ cp) && decide (cp < 0xE000))) &&
          utf8Valid rest2
      | _ => false
    else if b < 0xF5 then
      match rest with
      | c1 :: c2 :: c3 :: rest2 =>
        utf8Cont c1 && utf8Cont c2 && utf8Cont c3 &&
          (let cp := (b - 0xF0) * 262144 + (c1 - 0x80) * 4096 +
              (c2 - 0x80) * 64 + (c3 - 0x80)
           decide (0x10000 ≤ cp) && decide (cp < 0x110000)) &&
          utf8Valid rest2
      | _ => false
    else false

/-- ELF64 file header: the raw 64 header bytes; accessors decode fields
on demand with the endianness, as the object crate does. -/
structure FileHeader64 where
  raw : Bytes
deriving DecidableEq, Repr

/-- The 16 identification bytes. -/
def FileHeader64.e_ident (h : FileHeader64) : Bytes := h.raw.take 16

/-- Program header table file offset (u64 at byte 32). -/
def FileHeader64.e_phoff (h : FileHeader64) (e : Endianness) : Nat :=
  fieldAt h.raw 32 8 e

/-- Raw program header count (u16 at byte 56). -/
def FileHeader64.e_phnum (h : FileHeader64) (e : Endianness) : Nat :=
  fieldAt h.raw 56 2 e

/-- object crate FileHeader::is_supported for FileHeader64: ELF magic,
64-bit class, a known byte order, current version. -/
def FileHeader64.is_supported (h : FileHeader64) : Bool :=
  h.e_ident.take 4 == [0x7f, 0x45, 0x4c, 0x46] &&
    h.e_ident.getD 4 0 == 2 &&
    (h.e_ident.getD 5 0 == 1 || h.e_ident.getD 5 0 == 2) &&
    h.e_ident.getD 6 0 == 1

/-- object crate FileHeader64::parse: read the 64 header bytes at offset 0
and require a supported header; both failures surface as the source's
ParseElfHeader error. -/
def FileHeader64.parse (data : Bytes) : Except Error FileHeader64 :=
  match readBytesAt data 0 64 with
  | none => .error .ParseElfHeader
  | some bs =>
    let h : FileHeader64 := ⟨bs⟩
    if h.is_supported then .ok h else .error .ParseElfHeader

/-- object crate FileHeader::endian: byte order from e_ident byte 5.
For the two-ended Endianness type this never fails; the Except shape
mirrors the source's error mapping to GetElfEndianness. -/
def FileHeader64.endian (h : FileHeader64) : Except Error Endianness :=
  if h.e_ident.getD 5 0 = 2 then .ok .big else .ok .little

/-- object crate FileHeader::phnum: the raw count, where the PN_XNUM
(0xffff) extension path, which consults section header 0, is modelled as
the failed read the source maps to GetElfProgramHeadersNumber. -/
def FileHeader64.phnum (h : FileHeader64) (e : Endianness) : Except Error Nat :=
  if h.e_phnum e < 0xffff then .ok (h.e_phnum e)
  else .error .GetElfProgramHeadersNumber

/-- ELF64 program header (object::elf::ProgramHeader64), decoded. -/
structure ProgramHeader64 where
  p_type : Nat
  p_flags : Nat
  p_offset : Nat
  p_vaddr : Nat
  p_paddr : Nat
  p_filesz : Nat
  p_memsz : Nat
  p_align : Nat
deriving DecidableEq, Repr

/-- Decode one 56-byte ProgramHeader64 record. -/
def ProgramHeader64.parse (e : Endianness) (bs : Bytes) : ProgramHeader64 :=
  { p_type := fieldAt bs 0 4 e
    p_flags := fieldAt bs 4 4 e
    p_offset := fieldAt bs 8 8 e
    p_vaddr := fieldAt bs 16 8 e
    p_paddr := fieldAt bs 24 8 e
    p_filesz := fieldAt bs 32 8 e
    p_memsz := fieldAt bs 40 8 e
    p_align := fieldAt bs 48 8 e }

/-- size_of::(Dyn64). -/
def DYN64_SIZE : Nat := 16
/-- size_of::(Rela64). -/
def RELA64_SIZE : Nat := 24
/-- size_of::(ProgramHeader64). -/
def PHDR64_SIZE : Nat := 56

/-- GotHook::get_elf_segments (got_hook.rs lines 301 to 322). -/
def get_elf_segments (data : Bytes) (header : FileHeader64) (endian : Endianness) :
    Except Error (List ProgramHeader64) :=
  let program_headers_offset := header.e_phoff endian
  if program_headers_offset = 0 then .error .ElfHasNoProgramHeaders
  else
    match header.phnum endian with
    | .error e => .error e
    | .ok program_headers_number =>
      if program_headers_number = 0 then .error .ElfHasNoProgramHeaders
      else
        match read_slice_at data program_headers_offset program_headers_number
            PHDR64_SIZE (ProgramHeader64.parse endian) with
        | none => .error .ReadElfProgramHeaders
        | some segments => .ok segments

/-- GotHook::find_elf_dynamic_segment (got_hook.rs lines 140 to 157). -/
def find_elf_dynamic_segment (data : Bytes) (header : FileHeader64)
    (endian : Endianness) : Except Error (List Dyn64) :=
  match get_elf_segments data header endian with
  | .error e => .error e
  | .ok segments =>
    match segments.find? (fun s => PT_DYNAMIC == s.p_type) with
    | none => .error .ElfHasNoDynamicSegment
    | some program_header =>
      match read_slice_at data program_header.p_vaddr
          (program_header.p_memsz / DYN64_SIZE) DYN64_SIZE (Dyn64.parse endian) with
      | none => .error .ReadElfDynamicSegment
      | some dyns => .ok dyns

/-- GotHook::find_elf_plt_relocation_table (got_hook.rs lines 159 to 189).
Note: the source passes the PLTRELSZ value, a byte size, directly as the
record COUNT of read_slice_at, without dividing by the 24-byte record
size (compare the dynamic-segment read above, which divides). -/
def find_elf_plt_relocation_table (data : Bytes) (dynamic_segment : List Dyn64)
    (endian : Endianness) : Except Error (List Rela64) :=
  match dynamic_segment.find? (tagMatches DT_JMPREL) with
  | none => .error .ElfHasNoPltRelocationTable
  | some address_entry =>
    match dynamic_segment.find? (tagMatches DT_PLTRELSZ) with
    | none => .error .ElfHasNoPltRelocationTable
    | some size_entry =>
      match read_slice_at data address_entry.d_val size_entry.d_val RELA64_SIZE
          (Rela64.parse endian) with
      | none => .error .ReadElfPltRelocationTable
      | some table => .ok table

/-- GotHook::find_elf_dynamic_string_table (got_hook.rs lines 191 to 216).
Both missing-tag failures reuse the ElfHasNoPltRelocationTable error, as
in the source.  The data argument is the slice StringTable::new wraps. -/
def find_elf_dynamic_string_table (data : Bytes) (dynamic_segment : List Dyn64)
    (endian : Endianness) : Except Error StringTable :=
  match dynamic_segment.find? (tagMatches DT_STRTAB) with
  | none => .error .ElfHasNoPltRelocationTable
  | some address_entry =>
    match dynamic_segment.find? (tagMatches DT_STRSZ) with
    | none => .error .ElfHasNoPltRelocationTable
    | some size_entry =>
      .ok { start := address_entry.d_val, stop := address_entry.d_val + size_entry.d_val }

/-- The symbol-name resolution performed inside the relocation loop of
find_elf_function_got_entry (got_hook.rs lines 245 to 262): read the
Sym64 record at SYMTAB plus index times 24, then its string-table name,
then validate it as UTF-8. -/
def rela_symbol_name (data : Bytes) (endian : Endianness) (symtab_addr : Nat)
    (strtab : StringTable) (r : Rela64) : Except Error Bytes :=
  match read_sym_at data endian (symtab_addr + r.rSym * SYM64_SIZE) with
  | none => .error .ReadElfSymbol
  | some sym =>
    match sym.name data strtab with
    | none => .error .FindElfSymbolName
    | some bs => if utf8Valid bs then .ok bs else .error .NonUtf8ElfSymbolName

/-- The relocation-scan loop of find_elf_function_got_entry (got_hook.rs
lines 239 to 275): in table order, skip relocations whose type is not
R_AARCH64_JUMP_SLOT, resolve the symbol name of the others, skip name
mismatches, and return base_address plus r_offset at the first match;
an exhausted table is NoGotEntryForFunction. -/
def got_entry_scan (base_address : Nat) (data : Bytes) (endian : Endianness)
    (symtab_addr : Nat) (strtab : StringTable) (function_name : Bytes) :
    List Rela64 → Except Error Nat
  | [] => .error (.NoGotEntryForFunction function_name)
  | r :: rest =>
    if r.rType != R_AARCH64_JUMP_SLOT then
      got_entry_scan base_address data endian symtab_addr strtab function_name rest
    else
      match rela_symbol_name data endian symtab_addr strtab r with
      | .error e => .error e
      | .ok symbol_name =>
        if symbol_name != function_name then
          got_entry_scan base_address data endian symtab_addr strtab function_name rest
        else
          .ok (base_address + r.r_offset)

/-- GotHook::find_elf_function_got_entry (got_hook.rs lines 218 to 276):
look up DT_SYMTAB (missing tag reuses ElfHasNoPltRelocationTable, as in
the source) and run the relocation scan. -/
def find_elf_function_got_entry (base_address : Nat) (data : Bytes)
    (dynamic_segment : List Dyn64) (plt_relocation_table : List Rela64)
    (dynamic_string_table : StringTable) (endian : Endianness)
    (function_name : Bytes) : Except Error Nat :=
  match dynamic_segment.find? (tagMatches DT_SYMTAB) with
  | none => .error .ElfHasNoPltRelocationTable
  | some address_entry =>
    got_entry_scan base_address data endian address_entry.d_val
      dynamic_string_table function_name plt_relocation_table

/-- One line of /proc/self/maps as procfs exposes it to the source:
map.address.0 is the mapping's start, map.address.1 its end. -/
structure MemoryMap where
  start : Nat
  stop : Nat
deriving DecidableEq, Repr

/-- Protection flags of a page, as requested through nix::sys::mman. -/
structure ProtFlags where
  read : Bool
  write : Bool
  exec : Bool
deriving DecidableEq, Repr

/-- Live process memory: mem is the pointer-sized value stored at each
absolute address (the quantity the GOT-slot reads and writes move),
prot the protection flags covering each absolute address. -/
structure MachineState where
  mem : Nat → Nat
  prot : Nat → ProtFlags

/-- The OS facilities the source calls, fixed for the duration of one
operation: dladdr (none models a zero return), Process::myself success,
the maps() result (none models a read failure), the bytes of mapped
process memory (consumed by the ELF introspection reads), and mprotect's
outcome per page address (some errno models a failure). -/
structure Env where
  dladdrResult : Nat → Option Nat
  procSelf : Bool
  procMaps : Option (List MemoryMap)
  memBytes : Nat → Nat
  mprotectErr : Nat → Option Nat

/-- Outcome of an operation that can also panic: panicked models a Rust
arithmetic-overflow panic (debug overflow checks). -/
inductive Res (α : Type) where
  | ok (a : α)
  | err (e : Error)
  | panicked
deriving DecidableEq, Repr

/-- The maps-scan loop of find_elf_in_memory (got_hook.rs lines 109 to
129), with its two pieces of loop state (number_of_elf_mappings_found and
top_address): after the mapping starting at base_address, two further
mappings are consumed, and the end of the following (fourth) mapping is
taken as the top address; falling off the list leaves top_address as is
(initially 0). -/
def find_elf_top_address (base_address : Nat) :
    List MemoryMap → Nat → Nat → Nat
  | [], _, top_address => top_address
  | map :: rest, number_found, top_address =>
    if number_found = 0 then
      if map.start = base_address then
        find_elf_top_address base_address rest 1 top_address
      else
        find_elf_top_address base_address rest 0 top_address
    else if number_found ≤ 2 then
      find_elf_top_address base_address rest (number_found + 1) top_address
    else
      map.stop

/-- GotHook::find_elf_in_memory (got_hook.rs lines 101 to 138): locate the
process, read its maps, scan for the module's four mappings, and return
the span (base, top minus base).  The closing subtraction is u64: when
top_address is below base_address (base never matched, or fewer than four
mappings followed) it underflows, which is the panicked outcome under
Rust's overflow checks. -/
def find_elf_in_memory (env : Env) (base_address : Nat) : Res (Nat × Nat) :=
  if ¬ env.procSelf then .err .FindCurrentProcess
  else
    match env.procMaps with
    | none => .err .ReadProcessMaps
    | some maps =>
      let top_address := find_elf_top_address base_address maps 0 0
      if base_address ≤ top_address then .ok (base_address, top_address - base_address)
      else .panicked

/-- The byte slice slice::from_raw_parts builds over live memory at
find_elf_in_memory's return: len bytes starting at base. -/
def elfSlice (env : Env) (base len : Nat) : Bytes :=
  (List.range len).map (fun i => env.memBytes (base + i))

/-- mprotect's effect on success: the len bytes from addr get exactly the
requested flags (mprotect replaces a page's flags, it does not add). -/
def mprotect_set (s : MachineState) (addr len : Nat) (flags : ProtFlags) :
    MachineState :=
  { s with prot := fun a => if addr ≤ a ∧ a < addr + len then flags else s.prot a }

/-- GotHook::hook_got_entry (got_hook.rs lines 278 to 299): round the
entry address down to the hardcoded 4096-byte page with the u64 mask
NOT (PAGE_SIZE - 1), request read plus write on that page, and only then
write the callback into the pointer-sized slot.  A protection failure
returns before the write with the state unchanged. -/
def hook_got_entry (env : Env) (entry_address callback : Nat) (s : MachineState) :
    Except Error Unit × MachineState :=
  let got_entry_page := entry_address &&& (2 ^ 64 - PAGE_SIZE)
  match env.mprotectErr got_entry_page with
  | some errno => (.error (.ModifyMemoryPageProtection errno got_entry_page), s)
  | none =>
    let s1 := mprotect_set s got_entry_page PAGE_SIZE
      { read := true, write := true, exec := false }
    (.ok (), { s1 with mem := fun a => if a = entry_address then callback else s1.mem a })

/-- The handle struct GotHook (got_hook.rs lines 20 to 23). -/
structure GotHook where
  got_entry : Nat
  original_function : Nat
deriving DecidableEq, Repr

/-- The read-only prefix of GotHook::new (got_hook.rs lines 26 to 62):
dladdr on the callback, the in-memory ELF span, header parse, endianness,
dynamic segment, PLT relocation table, dynamic string table, and the
function's GOT entry address.  None of these steps writes memory. -/
def resolve_got_entry (env : Env) (function_name : Bytes) (callback : Nat) :
    Res Nat :=
  match env.dladdrResult callback with
  | none => .err (.Dladdr callback)
  | some dli_fbase =>
    match find_elf_in_memory env dli_fbase with
    | .panicked => .panicked
    | .err e => .err e
    | .ok (base, len) =>
      let elf_data := elfSlice env base len
      match FileHeader64.parse elf_data with
      | .error e => .err e
      | .ok elf_header =>
        match elf_header.endian with
        | .error e => .err e
        | .ok elf_endian =>
          match find_elf_dynamic_segment elf_data elf_header elf_endian with
          | .error e => .err e
          | .ok elf_dynamic_segment =>
            match find_elf_plt_relocation_table elf_data elf_dynamic_segment
                elf_endian with
            | .error e => .err e
            | .ok elf_plt_relocation_table =>
              match find_elf_dynamic_string_table elf_data elf_dynamic_segment
                  elf_endian with
              | .error e => .err e
              | .ok elf_dynamic_string_table =>
                match find_elf_function_got_entry dli_fbase elf_data
                    elf_dynamic_segment elf_plt_relocation_table
                    elf_dynamic_string_table elf_endian function_name with
                | .error e => .err e
                | .ok function_got_entry => .ok function_got_entry

/-- GotHook::new (got_hook.rs lines 26 to 75): resolve the GOT entry
(read-only), read the slot's current value as the original function,
hook the entry, and return the handle.  The resulting machine state is
threaded through every branch; every failing branch leaves it unchanged,
as every failure in the source occurs before the slot write. -/
def GotHook.new (env : Env) (function_name : Bytes) (callback : Nat)
    (s : MachineState) : Res GotHook × MachineState :=
  match resolve_got_entry env function_name callback with
  | .panicked => (.panicked, s)
  | .err e => (.err e, s)
  | .ok function_got_entry =>
    let original_function := s.mem function_got_entry
    match hook_got_entry env function_got_entry callback s with
    | (.error e, s') => (.err e, s')
    | (.ok _, s') =>
      (.ok { got_entry := function_got_entry, original_function := original_function }, s')

/-- GotHook::get_original_function (got_hook.rs lines 77 to 79): a pure
projection of the handle, mirroring the shared borrow receiver — it
neither takes nor produces a machine state, so it can mutate nothing and
returns the same value on every call on the same handle. -/
def GotHook.get_original_function (h : GotHook) : Nat :=
  h.original_function

/-- The Drop impl for GotHook (got_hook.rs lines 325 to 333): write the
original function back into the pointer-sized slot at got_entry.  Nothing
else is touched; in particular prot is left exactly as it was. -/
def GotHook.drop (h : GotHook) (s : MachineState) : MachineState :=
  { s with mem := fun a => if a = h.got_entry then h.original_function else s.mem a }

/-- Modelled from the spec: the relocation-table sizing of spec section
4.3 step 6, PLTRELSZ divided by the relocation record size as the record
count at JMPREL, with a bounds-failing read reported as the
RelocationTableUnreadable error (ReadElfPltRelocationTable).  This is the
sizing the source's find_elf_plt_relocation_table omits; it exists only
to contrast with that function. -/
def find_elf_plt_relocation_table_specSized (data : Bytes)
    (dynamic_segment : List Dyn64) (endian : Endianness) :
    Except Error (List Rela64) :=
  match dynamic_segment.find? (tagMatches DT_JMPREL) with
  | none => .error .ElfHasNoPltRelocationTable
  | some address_entry =>
    match dynamic_segment.find? (tagMatches DT_PLTRELSZ) with
    | none => .error .ElfHasNoPltRelocationTable
    | some size_entry =>
      match read_slice_at data address_entry.d_val (size_entry.d_val / RELA64_SIZE)
          RELA64_SIZE (Rela64.parse endian) with
      | none => .error .ReadElfPltRelocationTable
      | some table => .ok table

/-! Concrete fixtures: a miniature in-memory ELF image and environment
used to exercise the definitions on closed inputs. -/

/-- Little-endian encoding of a 16-bit value. -/
def u16le (n : Nat) : Bytes := [n % 256, n / 256 % 256]

/-- Little-endian encoding of a 32-bit value. -/
def u32le (n : Nat) : Bytes :=
  [n % 256, n / 256 % 256, n / 65536 % 256, n / 16777216 % 256]

/-- Little-endian encoding of a 64-bit value. -/
def u64le (n : Nat) : Bytes := u32le (n % 4294967296) ++ u32le (n / 4294967296)

/-- A 264-byte little-endian ELF64 image: header (phoff 64, phnum 1), one
PT_DYNAMIC program header (vaddr 120, memsz 80), five dynamic entries
(JMPREL 200, PLTRELSZ 1, STRTAB 248, STRSZ 16, SYMTAB 224), one jump-slot
relocation (offset 800, symbol 0), one symbol (name offset 0), and a
string table holding "open".  PLTRELSZ is 1 because the source passes it
as the record count of the relocation-table read. -/
def testElf : Bytes :=
  ([0x7f, 0x45, 0x4c, 0x46, 2, 1, 1] ++ List.replicate 9 0)
    ++ u16le 2 ++ u16le 183 ++ u32le 1 ++ u64le 0
    ++ u64le 64 ++ u64le 0 ++ u32le 0 ++ u16le 64 ++ u16le 56 ++ u16le 1
    ++ u16le 0 ++ u16le 0 ++ u16le 0
    ++ (u32le 2 ++ u32le 6 ++ u64le 64 ++ u64le 120 ++ u64le 120 ++ u64le 80
      ++ u64le 80 ++ u64le 8)
    ++ (u64le 23 ++ u64le 200) ++ (u64le 2 ++ u64le 1) ++ (u64le 5 ++ u64le 248)
    ++ (u64le 10 ++ u64le 16) ++ (u64le 6 ++ u64le 224)
    ++ (u64le 800 ++ u64le 1026 ++ u64le 0)
    ++ (u32le 0 ++ [0, 0] ++ u16le 0 ++ u64le 0 ++ u64le 0)
    ++ ([111, 112, 101, 110, 0] ++ List.replicate 11 0)

/-- The UTF-8 bytes of the function name "open". -/
def fnOpen : Bytes := [111, 112, 101, 110]

/-- Four consecutive mappings for the module at base 65536; the fourth
ends at 65800, giving the 264-byte span of testElf. -/
def testMaps : List MemoryMap :=
  [⟨65536, 65700⟩, ⟨65700, 65710⟩, ⟨65710, 65720⟩, ⟨65720, 65800⟩]

/-- An environment that maps testElf at 65536, resolves every dladdr probe
to that base, and lets mprotect fail with the given errno when mp is some. -/
def testEnv (mp : Option Nat) : Env :=
  { dladdrResult := fun _ => some 65536
    procSelf := true
    procMaps := some testMaps
    memBytes := fun a => if a < 65536 then 0 else testElf.getD (a - 65536) 0
    mprotectErr := fun _ => mp }

/-- An initial machine state: every slot holds 424242 and every page is
readable and executable but not writable. -/
def s0 : MachineState :=
  { mem := fun _ => 424242, prot := fun _ => { read := true, write := false, exec := true } }

/-- A distinct machine state standing for arbitrary activity between
install and release. -/
def sMid : MachineState :=
  { mem := fun _ => 999, prot := fun _ => { read := true, write := true, exec := false } }

/-- A 58-byte span for the relocation-scan fixtures: two symbols at 0 and
24 (name offsets 0 and 5) and a string table at 48..58 holding "aaaa" and
"open". -/
def data2 : Bytes :=
  (u32le 0 ++ [0, 0] ++ u16le 0 ++ u64le 0 ++ u64le 0)
    ++ (u32le 5 ++ [0, 0] ++ u16le 0 ++ u64le 0 ++ u64le 0)
    ++ [97, 97, 97, 97, 0, 111, 112, 101, 110, 0]

/-- The string table view over data2. -/
def st2 : StringTable := ⟨48, 58⟩

/-- A dynamic segment holding only SYMTAB at 0, for the scan fixtures. -/
def dyn1 : List Dyn64 := [⟨6, 0⟩]

/-- A relocation that is not a jump slot (type 0). -/
def q1 : Rela64 := ⟨0, 0, 0⟩

/-- A jump-slot relocation for symbol 0, whose name is "aaaa". -/
def q2 : Rela64 := ⟨64, 1026, 0⟩

/-- A jump-slot relocation for symbol 1, whose name is "open". -/
def r2 : Rela64 := ⟨160, 4294968322, 0⟩

/-- The scan fixture table: a non-jump-slot entry, a jump-slot entry with
the wrong name, then the jump-slot entry named "open". -/
def plt2 : List Rela64 := [q1, q2, r2]

/-- A relocation of the x86-64 jump-slot type (7) for symbol 1, whose
name is "open": r_info is 2 to the 32 plus 7. -/
def x86rel : Rela64 := ⟨160, 4294967303, 0⟩

/-- A dynamic segment with JMPREL, PLTRELSZ, STRTAB, STRSZ and SYMTAB but
no PLTREL entry. -/
def dyn4 : List Dyn64 := [⟨23, 0⟩, ⟨2, 1⟩, ⟨5, 48⟩, ⟨10, 10⟩, ⟨6, 0⟩]

/-- A dynamic segment missing JMPREL. -/
def dynNoJmprel : List Dyn64 := [⟨2, 1⟩]

/-- A dynamic segment missing STRTAB. -/
def dynNoStrtab : List Dyn64 := [⟨23, 0⟩, ⟨2, 1⟩, ⟨10, 10⟩, ⟨6, 0⟩]

/-- A dynamic segment missing SYMTAB. -/
def dynNoSymtab : List Dyn64 := [⟨23, 0⟩, ⟨2, 1⟩, ⟨5, 48⟩, ⟨10, 10⟩]

/-- A 72-byte span holding exactly two 24-byte relocation records and 24
bytes of padding, for the relocation-table sizing fixture. -/
def data6 : Bytes :=
  (u64le 100 ++ u64le 1026 ++ u64le 0) ++ (u64le 200 ++ u64le 1026 ++ u64le 0)
    ++ List.replicate 24 0

/-- Dynamic entries declaring the relocation table at 0 with byte size 48
(two records). -/
def dyn6 : List Dyn64 := [⟨23, 0⟩, ⟨2, 48⟩]

/-- An environment whose maps contain no mapping starting at the probed
base address. -/
def env5 : Env :=
  { dladdrResult := fun _ => some 4096
    procSelf := true
    procMaps := some []
    memBytes := fun _ => 0
    mprotectErr := fun _ => none }

/-- An environment whose maps contain the probed base address but fewer
than four mappings in total. -/
def env5b : Env :=
  { dladdrResult := fun _ => some 4096
    procSelf := true
    procMaps := some [⟨4096, 5000⟩, ⟨5000, 6000⟩]
    memBytes := fun _ => 0
    mprotectErr := fun _ => none }

/-! Helper lemmas shared by the claim theorems. -/

/-- The u64 mask NOT (PAGE_SIZE - 1) rounds an address below 2 to the 64
down to its 4096-byte page boundary. -/
theorem land_page_mask (n : Nat) (h : n < 2 ^ 64) :
    n &&& (2 ^ 64 - PAGE_SIZE) = n - n % PAGE_SIZE := by
  have hmask : 2 ^ 64 - PAGE_SIZE = (2 ^ 52 - 1) <<< 12 := by
    rw [Nat.shiftLeft_eq]
    norm_num [PAGE_SIZE]
  have hdiv : n - n % PAGE_SIZE = (n >>> 12) <<< 12 := by
    rw [Nat.shiftLeft_eq, Nat.shiftRight_eq_div_pow]
    have h1 := Nat.div_add_mod n (2 ^ 12)
    have h2 : PAGE_SIZE = 2 ^ 12 := by norm_num [PAGE_SIZE]
    rw [h2]
    omega
  rw [hmask, hdiv]
  apply Nat.eq_of_testBit_eq
  intro i
  rw [Nat.testBit_and]
  simp only [Nat.testBit_shiftLeft, Nat.testBit_shiftRight, Nat.testBit_two_pow_sub_one]
  by_cases h12 : 12 ≤ i
  · have hi : 12 + (i - 12) = i := by omega
    rw [hi]
    by_cases h64 : i < 64
    · have : i - 12 < 52 := by omega
      simp [h12, this, ge_iff_le]
    · have hn : n.testBit i = false := Nat.testBit_lt_two_pow
        (lt_of_lt_of_le h (Nat.pow_le_pow_right (by norm_num) (by omega)))
      have : ¬ (i - 12 < 52) := by omega
      simp [hn, this]
  · simp [ge_iff_le, h12]

/-- A relocation whose type is not the AArch64 jump-slot constant is
skipped by the scan. -/
theorem got_entry_scan_skip (base : Nat) (data : Bytes) (endian : Endianness)
    (symtab_addr : Nat) (strtab : StringTable) (fn : Bytes) (r : Rela64)
    (rest : List Rela64) (h : r.rType ≠ R_AARCH64_JUMP_SLOT) :
    got_entry_scan base data endian symtab_addr strtab fn (r :: rest) =
      got_entry_scan base data endian symtab_addr strtab fn rest := by
  simp only [got_entry_scan]
  rw [if_pos]
  simp [bne_iff_ne, h]

/-- A jump-slot relocation whose symbol name resolves to the searched
name ends the scan with base plus its r_offset. -/
theorem got_entry_scan_found (base : Nat) (data : Bytes) (endian : Endianness)
    (symtab_addr : Nat) (strtab : StringTable) (fn : Bytes) (r : Rela64)
    (rest : List Rela64) (hk : r.rType = R_AARCH64_JUMP_SLOT)
    (hn : rela_symbol_name data endian symtab_addr strtab r = .ok fn) :
    got_entry_scan base data endian symtab_addr strtab fn (r :: rest) =
      .ok (base + r.r_offset) := by
  simp only [got_entry_scan]
  rw [if_neg (by simp [bne_iff_ne, hk]), hn]
  simp

/-- A jump-slot relocation whose symbol name resolves to a different name
is skipped by the scan. -/
theorem got_entry_scan_other (base : Nat) (data : Bytes) (endian : Endianness)
    (symtab_addr : Nat) (strtab : StringTable) (fn : Bytes) (r : Rela64)
    (rest : List Rela64) (hk : r.rType = R_AARCH64_JUMP_SLOT) (nm : Bytes)
    (hn : rela_symbol_name data endian symtab_addr strtab r = .ok nm)
    (hne : nm ≠ fn) :
    got_entry_scan base data endian symtab_addr strtab fn (r :: rest) =
      got_entry_scan base data endian symtab_addr strtab fn rest := by
  simp only [got_entry_scan]
  rw [if_neg (by simp [bne_iff_ne, hk]), hn]
  simp [bne_iff_ne, hne]

/-- A table whose jump-slot relocations all resolve to names other than
the searched one exhausts to NoGotEntryForFunction. -/
theorem got_entry_scan_exhaust (base : Nat) (data : Bytes) (endian : Endianness)
    (symtab_addr : Nat) (strtab : StringTable) (fn : Bytes)
    (plt : List Rela64)
    (h : ∀ q ∈ plt, q.rType = R_AARCH64_JUMP_SLOT →
      ∃ nm, rela_symbol_name data endian symtab_addr strtab q = .ok nm ∧ nm ≠ fn) :
    got_entry_scan base data endian symtab_addr strtab fn plt =
      .error (.NoGotEntryForFunction fn) := by
  induction plt with
  | nil => rfl
  | cons r rest ih =>
    have hrest : ∀ q ∈ rest, q.rType = R_AARCH64_JUMP_SLOT →
        ∃ nm, rela_symbol_name data endian symtab_addr strtab q = .ok nm ∧ nm ≠ fn :=
      fun q hq => h q (List.mem_cons_of_mem r hq)
    by_cases hk : r.rType = R_AARCH64_JUMP_SLOT
    · obtain ⟨nm, hnm, hne⟩ := h r (List.mem_cons_self r rest) hk
      rw [got_entry_scan_other base data endian symtab_addr strtab fn r rest hk nm hnm hne]
      exact ih hrest
    · rw [got_entry_scan_skip base data endian symtab_addr strtab fn r rest hk]
      exact ih hrest

/-- First-match: with every earlier jump-slot relocation resolving to a
different name, the scan returns the offset of the first jump-slot
relocation whose name matches. -/
theorem got_entry_scan_first_match (base : Nat) (data : Bytes)
    (endian : Endianness) (symtab_addr : Nat) (strtab : StringTable) (fn : Bytes)
    (pre : List Rela64) (r : Rela64) (post : List Rela64)
    (hpre : ∀ q ∈ pre, q.rType = R_AARCH64_JUMP_SLOT →
      ∃ nm, rela_symbol_name data endian symtab_addr strtab q = .ok nm ∧ nm ≠ fn)
    (hk : r.rType = R_AARCH64_JUMP_SLOT)
    (hn : rela_symbol_name data endian symtab_addr strtab r = .ok fn) :
    got_entry_scan base data endian symtab_addr strtab fn (pre ++ r :: post) =
      .ok (base + r.r_offset) := by
  induction pre with
  | nil =>
    simpa using got_entry_scan_found base data endian symtab_addr strtab fn r post hk hn
  | cons q qs ih =>
    have hqs : ∀ p ∈ qs, p.rType = R_AARCH64_JUMP_SLOT →
        ∃ nm, rela_symbol_name data endian symtab_addr strtab p = .ok nm ∧ nm ≠ fn :=
      fun p hp => hpre p (List.mem_cons_of_mem q hp)
    rw [List.cons_append]
    by_cases hq : q.rType = R_AARCH64_JUMP_SLOT
    · obtain ⟨nm, hnm, hne⟩ := hpre q (List.mem_cons_self q qs) hq
      rw [got_entry_scan_other base data endian symtab_addr strtab fn q
        (qs ++ r :: post) hq nm hnm hne]
      exact ih hqs
    · rw [got_entry_scan_skip base data endian symtab_addr strtab fn q
        (qs ++ r :: post) hq]
      exact ih hqs

/-- A successful install returns the handle built from the resolved GOT
entry and the slot value read before the write: its original_function
field is exactly the pre-install slot value at its got_entry field. -/
theorem new_ok_original (env : Env) (fn : Bytes) (cb : Nat) (s : MachineState)
    (h : GotHook) (hok : (GotHook.new env fn cb s).1 = .ok h) :
    h.original_function = s.mem h.got_entry := by
  unfold GotHook.new at hok
  split at hok
  · simp at hok
  · simp at hok
  · split at hok
    · simp at hok
    · simp only [Res.ok.injEq] at hok
      rw [← hok]

/-- C1: Round-trip restoration — for every successful install
(GotHook::new) that captured original_value from the GOT slot, reading
the slot immediately after release (Drop) yields exactly that
original_value, bit-exact, regardless of what happened to memory in
between (in particular regardless of how many times the replacement
callback was invoked): the handle's captured value equals the
pre-install slot value, and Drop restores it from any intermediate
state. -/
theorem C1_round_trip (env : Env) (fn : Bytes) (cb : Nat) (s : MachineState)
    (h : GotHook) (hok : (GotHook.new env fn cb s).1 = .ok h) :
    h.original_function = s.mem h.got_entry ∧
    ∀ between : MachineState,
      (GotHook.drop h between).mem h.got_entry = s.mem h.got_entry := by
  have horig := new_ok_original env fn cb s h hok
  refine ⟨horig, fun between => ?_⟩
  show (GotHook.drop h between).mem h.got_entry = s.mem h.got_entry
  simp [GotHook.drop, horig]

set_option maxRecDepth 100000 in
/-- Witness for C1 at the concrete fixture: installing the hook for
"open" over testElf succeeds with entry 66336 and captured value 424242,
and releasing from an unrelated intermediate state restores the
pre-install slot value. -/
theorem C1_witness :
    (GotHook.new (testEnv none) fnOpen 66000 s0).1 = .ok ⟨66336, 424242⟩ ∧
    (GotHook.drop ⟨66336, 424242⟩ sMid).mem 66336 = s0.mem 66336 :=
  ⟨by decide,
   (C1_round_trip (testEnv none) fnOpen 66000 s0 ⟨66336, 424242⟩ (by decide)).2 sMid⟩

/-- C3: Failure atomicity of install — every execution of GotHook::new
that returns an error (any introspection, resolution, or protection
failure) leaves the machine state, and in particular the GOT slot,
exactly as it was: every failure occurs before the slot write, the
ProtectionChangeFailed error (ModifyMemoryPageProtection) included. -/
theorem C3_failure_atomicity (env : Env) (fn : Bytes) (cb : Nat)
    (s : MachineState) (e : Error)
    (herr : (GotHook.new env fn cb s).1 = .err e) :
    (GotHook.new env fn cb s).2 = s := by
  unfold GotHook.new at herr ⊢
  split at herr
  · rfl
  · rfl
  · split at herr
    · next e' s' hhook =>
      show s' = s
      unfold hook_got_entry at hhook
      dsimp only at hhook
      split at hhook
      · simp only [Prod.mk.injEq] at hhook
        exact hhook.2.symm
      · simp at hhook
    · simp at herr

set_option maxRecDepth 100000 in
/-- Witness for C3 at the concrete fixture: with mprotect denied (errno
13), install fails with ModifyMemoryPageProtection on page 65536 and the
machine state is returned unchanged. -/
theorem C3_witness :
    (GotHook.new (testEnv (some 13)) fnOpen 66000 s0).1 =
      .err (.ModifyMemoryPageProtection 13 65536) ∧
    (GotHook.new (testEnv (some 13)) fnOpen 66000 s0).2 = s0 :=
  ⟨by decide,
   C3_failure_atomicity (testEnv (some 13)) fnOpen 66000 s0
     (.ModifyMemoryPageProtection 13 65536) (by decide)⟩

/-- C8: Release frame condition — release (handle destruction) writes
original_value back into the slot at entry_address and changes nothing
else: every other memory slot keeps its value, and the protection map is
untouched (the pre-hook protection flags are not restored). -/
theorem C8_release_frame (h : GotHook) (s : MachineState) :
    (GotHook.drop h s).mem h.got_entry = h.original_function ∧
    (∀ a, a ≠ h.got_entry → (GotHook.drop h s).mem a = s.mem a) ∧
    (GotHook.drop h s).prot = s.prot := by
  refine ⟨by simp [GotHook.drop], fun a ha => ?_, rfl⟩
  simp [GotHook.drop, ha]

/-- Witness for C8 at a concrete handle and state: the slot at 100 gets
the original value 7, the neighbouring slot 108 and the protection map
are untouched. -/
theorem C8_witness :
    (GotHook.drop ⟨100, 7⟩ sMid).mem 100 = 7 ∧
    (GotHook.drop ⟨100, 7⟩ sMid).mem 108 = sMid.mem 108 ∧
    (GotHook.drop ⟨100, 7⟩ sMid).prot = sMid.prot :=
  ⟨(C8_release_frame ⟨100, 7⟩ sMid).1,
   (C8_release_frame ⟨100, 7⟩ sMid).2.1 108 (by decide),
   (C8_release_frame ⟨100, 7⟩ sMid).2.2⟩

/-- C9: Handle immutability and get_original determinism — the handle
returned by a successful GotHook::new is immutable (its embedded form is
a pure value with no mutating operation), and get_original_function is a
pure projection of the handle: it takes no machine state, so it can
mutate nothing, and on the same handle it always returns the same value,
namely the original_value captured from the slot before the patch. -/
theorem C9_handle_immutability (env : Env) (fn : Bytes) (cb : Nat)
    (s : MachineState) (h : GotHook)
    (hok : (GotHook.new env fn cb s).1 = .ok h) :
    GotHook.get_original_function h = h.original_function ∧
    GotHook.get_original_function h = s.mem h.got_entry :=
  ⟨rfl, new_ok_original env fn cb s h hok⟩

set_option maxRecDepth 100000 in
/-- Witness for C9 at the concrete fixture: the handle installed over
testElf answers 424242, the slot value captured before the patch, from
get_original_function. -/
theorem C9_witness :
    GotHook.get_original_function ⟨66336, 424242⟩ = 424242 ∧
    GotHook.get_original_function ⟨66336, 424242⟩ = s0.mem 66336 :=
  ⟨(C9_handle_immutability (testEnv none) fnOpen 66000 s0 ⟨66336, 424242⟩
      (by decide)).1,
   (C9_handle_immutability (testEnv none) fnOpen 66000 s0 ⟨66336, 424242⟩
      (by decide)).2⟩

/-- C2: GOT lookup semantics — with the DT_SYMTAB entry found in the
dynamic segment, find_elf_function_got_entry scans the relocation table
in table order, skips every relocation whose kind is not the jump-slot
constant, and on the first relocation whose symbol name byte-exactly
equals function_name returns base_address plus that relocation's offset;
if the scan exhausts with no match (every jump-slot relocation resolving
to some other name) it fails with NoGotEntryForFunction(function_name). -/
theorem C2_got_lookup (base : Nat) (data : Bytes) (dyn : List Dyn64)
    (plt : List Rela64) (strtab : StringTable) (endian : Endianness)
    (fn : Bytes) (se : Dyn64)
    (hse : dyn.find? (tagMatches DT_SYMTAB) = some se) :
    (∀ pre r post,
        plt = pre ++ r :: post →
        (∀ q ∈ pre, q.rType = R_AARCH64_JUMP_SLOT →
          ∃ nm, rela_symbol_name data endian se.d_val strtab q = .ok nm ∧ nm ≠ fn) →
        r.rType = R_AARCH64_JUMP_SLOT →
        rela_symbol_name data endian se.d_val strtab r = .ok fn →
        find_elf_function_got_entry base data dyn plt strtab endian fn =
          .ok (base + r.r_offset)) ∧
    ((∀ q ∈ plt, q.rType = R_AARCH64_JUMP_SLOT →
        ∃ nm, rela_symbol_name data endian se.d_val strtab q = .ok nm ∧ nm ≠ fn) →
      find_elf_function_got_entry base data dyn plt strtab endian fn =
        .error (.NoGotEntryForFunction fn)) := by
  constructor
  · intro pre r post hplt hpre hk hn
    simp only [find_elf_function_got_entry, hse, hplt]
    exact got_entry_scan_first_match base data endian se.d_val strtab fn pre r post
      hpre hk hn
  · intro hall
    simp only [find_elf_function_got_entry, hse]
    exact got_entry_scan_exhaust base data endian se.d_val strtab fn plt hall

set_option maxRecDepth 100000 in
/-- Witness for C2 at the concrete fixture: in a table holding a
non-jump-slot relocation, a jump-slot relocation named "aaaa" and a
jump-slot relocation named "open", the lookup of "open" returns the base
plus the third relocation's offset 160. -/
theorem C2_witness :
    find_elf_function_got_entry 1000 data2 dyn1 plt2 st2 .little fnOpen =
      .ok (1000 + 160) := by
  refine (C2_got_lookup 1000 data2 dyn1 plt2 st2 .little fnOpen ⟨6, 0⟩
    (by decide)).1 [q1, q2] r2 [] (by decide) ?_ (by decide) rfl
  intro q hq hk
  fin_cases hq
  · exact absurd hk (by decide)
  · exact ⟨[97, 97, 97, 97], rfl, by decide⟩

set_option maxRecDepth 100000 in
/-- C6 (counterexample to the per-target selection): a relocation of the
x86-64 jump-slot kind (7) whose symbol name byte-exactly matches the
searched name is nevertheless skipped, and the lookup fails — the kind
test does not use a per-build-target constant; it always compares
against the AArch64 value. -/
theorem C6_counterexample :
    x86rel.rType = R_X86_64_JUMP_SLOT ∧
    rela_symbol_name data2 .little 0 st2 x86rel = .ok fnOpen ∧
    find_elf_function_got_entry 1000 data2 dyn1 [x86rel] st2 .little fnOpen =
      .error (.NoGotEntryForFunction fnOpen) := by
  refine ⟨by decide, rfl, rfl⟩

/-- C6 (amended): the jump-slot relocation type constant used by the GOT
scan is the single architecture constant R_AARCH64_JUMP_SLOT (1026) on
every build, with no per-target selection; every relocation of any other
kind — the x86-64 jump-slot constant 7 included — is skipped by the
scan's kind test. -/
theorem C6_fixed_jump_slot_constant :
    R_AARCH64_JUMP_SLOT = 1026 ∧ R_X86_64_JUMP_SLOT = 7 ∧
    ∀ (base : Nat) (data : Bytes) (endian : Endianness) (symtab_addr : Nat)
      (strtab : StringTable) (fn : Bytes) (r : Rela64) (rest : List Rela64),
      r.rType ≠ R_AARCH64_JUMP_SLOT →
      got_entry_scan base data endian symtab_addr strtab fn (r :: rest) =
        got_entry_scan base data endian symtab_addr strtab fn rest :=
  ⟨rfl, rfl, fun base data endian symtab_addr strtab fn r rest h =>
    got_entry_scan_skip base data endian symtab_addr strtab fn r rest h⟩

/-- Witness for C6 at the concrete fixture: the kind-7 relocation is
skipped, the scan over the one-entry table equals the scan over the
empty table. -/
theorem C6_witness :
    got_entry_scan 1000 data2 .little 0 st2 fnOpen [x86rel] =
      got_entry_scan 1000 data2 .little 0 st2 fnOpen [] :=
  C6_fixed_jump_slot_constant.2.2 1000 data2 .little 0 st2 fnOpen x86rel []
    (by decide)

set_option maxRecDepth 100000 in
/-- C7 (counterexample): the missing-tag errors do not identify the tag,
and DT_PLTREL is not required at all — a dynamic segment with no PLTREL
entry still yields a relocation table successfully, and a missing STRTAB
and a missing SYMTAB surface as the same tag-free error value
ElfHasNoPltRelocationTable. -/
theorem C7_counterexample :
    dyn4.find? (tagMatches DT_PLTREL) = none ∧
    find_elf_plt_relocation_table data2 dyn4 .little = .ok [⟨0, 0, 0⟩] ∧
    find_elf_dynamic_string_table data2 dynNoStrtab .little =
      .error .ElfHasNoPltRelocationTable ∧
    find_elf_function_got_entry 0 data2 dynNoSymtab [] st2 .little fnOpen =
      .error .ElfHasNoPltRelocationTable := by
  refine ⟨by decide, rfl, rfl, rfl⟩

/-- C7 (amended): for each of the five dynamic tags the code actually
consults (JMPREL, PLTRELSZ, STRTAB, STRSZ, SYMTAB), absence of the tag is
fatal to the operation, but the failure is always the single, tag-free
error ElfHasNoPltRelocationTable rather than an error identifying the
missing tag; DT_PLTREL is never looked up. -/
theorem C7_uniform_missing_tag_error :
    (∀ (data : Bytes) (dyn : List Dyn64) (endian : Endianness),
        dyn.find? (tagMatches DT_JMPREL) = none →
        find_elf_plt_relocation_table data dyn endian =
          .error .ElfHasNoPltRelocationTable) ∧
    (∀ (data : Bytes) (dyn : List Dyn64) (endian : Endianness),
        dyn.find? (tagMatches DT_PLTRELSZ) = none →
        find_elf_plt_relocation_table data dyn endian =
          .error .ElfHasNoPltRelocationTable) ∧
    (∀ (data : Bytes) (dyn : List Dyn64) (endian : Endianness),
        dyn.find? (tagMatches DT_STRTAB) = none →
        find_elf_dynamic_string_table data dyn endian =
          .error .ElfHasNoPltRelocationTable) ∧
    (∀ (data : Bytes) (dyn : List Dyn64) (endian : Endianness),
        dyn.find? (tagMatches DT_STRSZ) = none →
        find_elf_dynamic_string_table data dyn endian =
          .error .ElfHasNoPltRelocationTable) ∧
    (∀ (base : Nat) (data : Bytes) (dyn : List Dyn64) (plt : List Rela64)
        (strtab : StringTable) (endian : Endianness) (fn : Bytes),
        dyn.find? (tagMatches DT_SYMTAB) = none →
        find_elf_function_got_entry base data dyn plt strtab endian fn =
          .error .ElfHasNoPltRelocationTable) := by
  refine ⟨?_, ?_, ?_, ?_, ?_⟩
  · intro data dyn endian h
    simp only [find_elf_plt_relocation_table, h]
  · intro data dyn endian h
    simp only [find_elf_plt_relocation_table, h]
    cases hj : dyn.find? (tagMatches DT_JMPREL) <;> simp
  · intro data dyn endian h
    simp only [find_elf_dynamic_string_table, h]
  · intro data dyn endian h
    simp only [find_elf_dynamic_string_table, h]
    cases hj : dyn.find? (tagMatches DT_STRTAB) <;> simp
  · intro base data dyn plt strtab endian fn h
    simp only [find_elf_function_got_entry, h]

/-- Witness for C7 at a concrete dynamic segment missing JMPREL: the
relocation-table lookup fails with the tag-free error. -/
theorem C7_witness :
    find_elf_plt_relocation_table data2 dynNoJmprel .little =
      .error .ElfHasNoPltRelocationTable :=
  C7_uniform_missing_tag_error.1 data2 dynNoJmprel .little (by decide)

set_option maxRecDepth 100000 in
/-- C4: Relocation-table sizing — the source passes the PLTRELSZ byte
size (here 48, two 24-byte records) directly as the record COUNT of
read_slice_at instead of PLTRELSZ divided by the record size: on a
72-byte span it demands 48 times 24 = 1152 bytes and fails with
ReadElfPltRelocationTable, while the sizing the spec describes (modelled
by find_elf_plt_relocation_table_specSized) reads the two records
successfully. -/
theorem C4_pltrelsz_used_as_count :
    find_elf_plt_relocation_table data6 dyn6 .little =
      .error .ReadElfPltRelocationTable ∧
    find_elf_plt_relocation_table_specSized data6 dyn6 .little =
      .ok [⟨100, 1026, 0⟩, ⟨200, 1026, 0⟩] := by
  refine ⟨rfl, rfl⟩

set_option maxRecDepth 100000 in
/-- C5: Module-range computation on a base address that matches no
mapping, or that is followed by fewer than four mappings — top_address
stays 0 and the u64 subtraction top_address minus base_address
underflows: the operation panics (under overflow checks) instead of
reporting an explicit ModuleRangeNotFound error, and GotHook::new
propagates the panic. -/
theorem C5_module_range_underflow :
    find_elf_in_memory env5 4096 = .panicked ∧
    find_elf_in_memory env5b 4096 = .panicked ∧
    (GotHook.new env5 fnOpen 66000 s0).1 = .panicked := by
  refine ⟨rfl, rfl, rfl⟩

/-- C10: Fixed-page protection request — hook_got_entry requests
protection on exactly the 4096-byte region starting at the entry address
with its low bits cleared by the u64 mask NOT (PAGE_SIZE - 1) (so the
entry address always lies inside that region), using the hardcoded
constant 4096; the requested flags are exactly read plus write with no
execute, replacing the page's previous flags for every address in the
region and leaving every address outside it untouched; a protection
failure surfaces as ModifyMemoryPageProtection on that page with the
state unchanged. -/
theorem C10_page_protection (env : Env) (entry cb : Nat) (s : MachineState)
    (hlt : entry < 2 ^ 64) :
    PAGE_SIZE = 4096 ∧
    entry &&& (2 ^ 64 - PAGE_SIZE) = entry - entry % 4096 ∧
    (entry &&& (2 ^ 64 - PAGE_SIZE)) ≤ entry ∧
    entry < (entry &&& (2 ^ 64 - PAGE_SIZE)) + PAGE_SIZE ∧
    (env.mprotectErr (entry &&& (2 ^ 64 - PAGE_SIZE)) = none →
      ∀ a,
        ((entry &&& (2 ^ 64 - PAGE_SIZE)) ≤ a ∧
            a < (entry &&& (2 ^ 64 - PAGE_SIZE)) + PAGE_SIZE →
          ((hook_got_entry env entry cb s).2).prot a =
            { read := true, write := true, exec := false }) ∧
        (¬ ((entry &&& (2 ^ 64 - PAGE_SIZE)) ≤ a ∧
            a < (entry &&& (2 ^ 64 - PAGE_SIZE)) + PAGE_SIZE) →
          ((hook_got_entry env entry cb s).2).prot a = s.prot a)) ∧
    (∀ errno, env.mprotectErr (entry &&& (2 ^ 64 - PAGE_SIZE)) = some errno →
      hook_got_entry env entry cb s =
        (.error (.ModifyMemoryPageProtection errno
          (entry &&& (2 ^ 64 - PAGE_SIZE))), s)) := by
  have hmask := land_page_mask entry hlt
  have hmod : entry % PAGE_SIZE < PAGE_SIZE := Nat.mod_lt _ (by norm_num [PAGE_SIZE])
  have hle : entry % PAGE_SIZE ≤ entry := Nat.mod_le entry PAGE_SIZE
  refine ⟨rfl, by rw [hmask]; rfl, ?_, ?_, ?_, ?_⟩
  · rw [hmask]
    exact Nat.sub_le entry (entry % PAGE_SIZE)
  · rw [hmask]
    omega
  · intro hmp a
    constructor
    · intro ha
      simp only [hook_got_entry, hmp, mprotect_set]
      rw [if_pos ha]
    · intro ha
      simp only [hook_got_entry, hmp, mprotect_set]
      rw [if_neg ha]
  · intro errno hmp
    simp only [hook_got_entry, hmp]

set_option maxRecDepth 100000 in
/-- Witness for C10 at the concrete fixture: for entry 66336 the page is
65536; with mprotect succeeding, an address inside the page (66000) gets
exactly read plus write (the pre-hook execute flag of s0 is dropped), an
address outside it (100) keeps its flags, and with mprotect failing with
errno 13 the state is returned unchanged with the
ModifyMemoryPageProtection error. -/
theorem C10_witness :
    ((hook_got_entry (testEnv none) 66336 66000 s0).2).prot 66000 =
      { read := true, write := true, exec := false } ∧
    ((hook_got_entry (testEnv none) 66336 66000 s0).2).prot 100 = s0.prot 100 ∧
    hook_got_entry (testEnv (some 13)) 66336 66000 s0 =
      (.error (.ModifyMemoryPageProtection 13 65536), s0) :=
  ⟨((C10_page_protection (testEnv none) 66336 66000 s0 (by norm_num)).2.2.2.2.1
      rfl 66000).1 (by decide),
   ((C10_page_protection (testEnv none) 66336 66000 s0 (by norm_num)).2.2.2.2.1
      rfl 100).2 (by decide),
   (C10_page_protection (testEnv (some 13)) 66336 66000 s0 (by norm_num)).2.2.2.2.2
      13 rfl⟩

end GotHookModel
